import Mathlib

/-!
Verification of `gensystemd.py`, a generator for systemd unit files.

The program is embedded shallowly:
* `SERVICE_TEMPLATE` and `generate_service_content` model the template and
  the renderer; Python's `str.format` is modelled by `pyFormatAux`, a parser
  that walks the template text (and only the template text), replacing
  `{field}` placeholders by the bound values, treating `\x7b\x7b`/`\x7d\x7d`
  as escaped braces, and failing (`none`) on a malformed template or an
  unknown field, exactly as `str.format` raises.
* `get_service_path` models the path resolver, with `pyEndsWith` embedding
  Python's case-sensitive `str.endswith` and `pathJoin` embedding
  `pathlib.Path.__truediv__` (an absolute right operand discards the base).
* The effectful parts (file write, `systemctl` invocations, `os.geteuid`)
  are modelled by explicit event traces over a `World` that fixes the
  outcomes of the external calls: `save_service_file`, `run_systemctl_command`,
  `install_service`, `save_only_service`, and `main` return their boolean /
  integer results paired with the list of side effects they performed,
  in order.
-/

namespace Gensystemd

/-- The character `\x7b`, kept as a named constant. -/
def lbrace : Char := '\x7b'

/-- The character `\x7d`, kept as a named constant. -/
def rbrace : Char := '\x7d'

/-- The fixed unit-file template (`SERVICE_TEMPLATE` in the source),
with the two `str.format` placeholders `description` and `command`. -/
def SERVICE_TEMPLATE : String :=
  "[Unit]\nDescription={description}\nAfter=network.target network-online.target\nWants=network-online.target\n\n[Service]\nType=simple\nExecStart=/bin/bash -c \"{command}\"\nRestart=always\nRestartSec=10\nUser=root\n\n[Install]\nWantedBy=multi-user.target\n"

/-- Read a `str.format` field name up to the closing brace.
Returns the field name and the remaining template text, or `none` if the
brace is never closed or another opening brace appears first. -/
def readField : List Char → Option (List Char × List Char)
  | [] => none
  | c :: rest =>
    if c = rbrace then some ([], rest)
    else if c = lbrace then none
    else (readField rest).map (fun p => (c :: p.1, p.2))

/-- Look up a field name in the keyword-argument environment. -/
def lookupEnv (env : List (List Char × List Char)) (f : List Char) : Option (List Char) :=
  match env with
  | [] => none
  | (k, v) :: rest => if k = f then some v else lookupEnv rest f

/-- One pass of Python `str.format` over the template text: placeholders are
replaced by their bound values, doubled braces denote literal braces, and a
stray or unclosed brace in the template, or an unknown field, is an error
(`none`).  Substituted values are emitted verbatim and never re-parsed,
exactly as in Python.  `fuel` bounds the recursion; every step consumes at
least one template character, so `length + 1` fuel always suffices. -/
def pyFormatAux (env : List (List Char × List Char)) : Nat → List Char → Option (List Char)
  | 0, _ => none
  | _ + 1, [] => some []
  | fuel + 1, c :: rest =>
    if c = lbrace then
      match rest with
      | [] => none
      | c2 :: rest2 =>
        if c2 = lbrace then (pyFormatAux env fuel rest2).map (fun r => lbrace :: r)
        else
          match readField rest with
          | none => none
          | some (f, after) =>
            match lookupEnv env f with
            | none => none
            | some v => (pyFormatAux env fuel after).map (fun r => v ++ r)
    else if c = rbrace then
      match rest with
      | [] => none
      | c2 :: rest2 =>
        if c2 = rbrace then (pyFormatAux env fuel rest2).map (fun r => rbrace :: r)
        else none
    else (pyFormatAux env fuel rest).map (fun r => c :: r)

/-- `tmpl.format(**env)`, modelled on top of `pyFormatAux`. -/
def pyFormat (tmpl : String) (env : List (String × String)) : Option String :=
  (pyFormatAux (env.map (fun p => (p.1.data, p.2.data))) (tmpl.data.length + 1) tmpl.data).map
    (fun l => ⟨l⟩)

/-- `generate_service_content` from the source: builds the description
`"Custom service: " + name` and substitutes description and command into
`SERVICE_TEMPLATE`.  The `Option` records whether `str.format` raised. -/
def generate_service_content (service_name command : String) : Option String :=
  pyFormat SERVICE_TEMPLATE
    [("description", "Custom service: " ++ service_name), ("command", command)]

/-- Python's case-sensitive `s.endswith(suffix)`. -/
def pyEndsWith (s suf : String) : Bool :=
  suf.data.isSuffixOf s.data

/-- The suffix normalization performed at the top of `get_service_path`:
append `".service"` exactly when the name does not already end with it. -/
def normalize_service_name (service_name : String) : String :=
  if pyEndsWith service_name ".service" then service_name
  else service_name ++ ".service"

/-- The fixed privileged base directory. -/
def SYSTEMD_DIR : String := "/etc/systemd/system"

/-- `pathlib`'s `base / child`: an absolute `child` discards the base,
otherwise the two are joined with a separator. -/
def pathJoin (base child : String) : String :=
  if child.data.head? = some '/' then child else base ++ "/" ++ child

/-- `get_service_path` from the source: force the `.service` suffix, then
join to `/etc/systemd/system`. -/
def get_service_path (service_name : String) : String :=
  pathJoin SYSTEMD_DIR (normalize_service_name service_name)

/-- `check_root_privileges` from the source: true exactly when the
effective user id is 0. -/
def check_root_privileges (euid : Nat) : Bool :=
  euid == 0

/-- Outcome of attempting to launch an external child process:
either it completed with a return code and captured streams, or the
executable could not be launched at all (e.g. not found). -/
inductive LaunchOutcome where
  | completed (returncode : Int) (stdout stderr : String)
  | notLaunched (msg : String)

/-- True exactly when the child process ran and exited with status 0. -/
def isZeroExit : LaunchOutcome → Bool
  | .completed rc _ _ => rc == 0
  | .notLaunched _ => false

/-- What `run_systemctl_command` reports (via the logger) about one
invocation: normal completion, a `CalledProcessError` with the captured
return code and streams, or another launch exception. -/
inductive CmdDiag where
  | success (stdout : String)
  | calledProcessError (returncode : Int) (stdout stderr : String)
  | otherError (msg : String)
deriving DecidableEq

/-- `full_command = ['systemctl'] + command` plus the optional
service-name argument, as assembled in `run_systemctl_command`. -/
def build_full_command (command : List String) (service_name : Option String) : List String :=
  "systemctl" :: (command ++ service_name.toList)

/-- `run_systemctl_command` from the source, over an oracle `run` fixing
each child process's outcome.  `subprocess.run(check=True)` raises
`CalledProcessError` on a non-zero exit and another exception when the
executable cannot be launched; both are caught and mapped to `false`,
with the captured data kept for reporting. -/
def run_systemctl_command (run : List String → LaunchOutcome)
    (command : List String) (service_name : Option String) : Bool × CmdDiag :=
  match run (build_full_command command service_name) with
  | .completed rc out err =>
    if rc = 0 then (true, .success out) else (false, .calledProcessError rc out err)
  | .notLaunched msg => (false, .otherError msg)

/-- Observable side effects of one run: a call to the template renderer,
to the path resolver, a file write, a permission change, or an external
`systemctl` invocation (with its full argument vector).  There is no
file-removal effect anywhere in the program. -/
inductive Event where
  | render (name command : String)
  | resolve (name : String)
  | write (path content : String)
  | chmod (path : String) (mode : Nat)
  | systemctl (args : List String)
deriving DecidableEq

/-- The environment a run executes against: the effective user id, whether
the file write succeeds (false models `open` raising, e.g.
`PermissionError`), and the outcome of each external child process. -/
structure World where
  euid : Nat
  writeOk : Bool
  run : List String → LaunchOutcome

/-- `save_service_file` from the source: writes the content and sets mode
`0o644`, returning `false` when the write raises.  (The tolerant
`mkdir(parents=True, exist_ok=True)` on the existing base directory has no
observable effect and is not modelled.) -/
def save_service_file (w : World) (service_path content : String) : Bool × List Event :=
  if w.writeOk then
    (true, [.write service_path content, .chmod service_path 0o644])
  else (false, [])

/-- `install_service` from the source: privilege check, path resolution,
file write, `daemon-reload`, then `enable` with the (raw) service name;
each step short-circuits the rest on failure. -/
def install_service (w : World) (service_name content : String) : Bool × List Event :=
  if check_root_privileges w.euid = false then (false, [])
  else
    let service_path := get_service_path service_name
    let saved := save_service_file w service_path content
    if saved.1 = false then (false, .resolve service_name :: saved.2)
    else
      let evs := .resolve service_name :: saved.2 ++
        [Event.systemctl (build_full_command ["daemon-reload"] none)]
      if (run_systemctl_command w.run ["daemon-reload"] none).1 = false then (false, evs)
      else
        let evs2 := evs ++ [Event.systemctl (build_full_command ["enable"] (some service_name))]
        if (run_systemctl_command w.run ["enable"] (some service_name)).1 = false then
          (false, evs2)
        else (true, evs2)

/-- `save_only_service` from the source: privilege check, path resolution,
file write; no `systemctl` invocation in this flow. -/
def save_only_service (w : World) (service_name content : String) : Bool × List Event :=
  if check_root_privileges w.euid = false then (false, [])
  else
    let service_path := get_service_path service_name
    let saved := save_service_file w service_path content
    (saved.1, .resolve service_name :: saved.2)

/-- The parsed command-line arguments relevant to control flow. -/
structure Args where
  name : String
  command : String
  install : Bool
  save : Bool

/-- `main` from the source: flag validation, content generation, then the
selected flow; returns the process return value together with the trace of
side effects.  A `none` from the renderer corresponds to the caught
generation exception. -/
def main (w : World) (a : Args) : Int × List Event :=
  if a.install && a.save then (1, [])
  else
    match generate_service_content a.name a.command with
    | none => (1, [.render a.name a.command])
    | some content =>
      if a.install then
        let r := install_service w a.name content
        (if r.1 then 0 else 1, .render a.name a.command :: r.2)
      else if a.save then
        let r := save_only_service w a.name content
        (if r.1 then 0 else 1, .render a.name a.command :: r.2)
      else (0, [.render a.name a.command])

/-- How the process terminates: `main` returned, the user interrupted, or
an unexpected exception reached the outermost handler. -/
inductive TermKind where
  | completed
  | interrupted
  | unexpectedError
deriving DecidableEq

/-- The `__main__` wrapper: `sys.exit(main())`, with interrupts and
unexpected exceptions both mapped to exit code 1. -/
def process_exit_code (w : World) (a : Args) : TermKind → Int
  | .completed => (main w a).1
  | .interrupted => 1
  | .unexpectedError => 1

/-- Split a character list at every occurrence of a separator; the result
always has one more element than the number of separators, like Python's
`str.split`. -/
def splitOnChar (sep : Char) : List Char → List (List Char)
  | [] => [[]]
  | c :: rest =>
    if c = sep then [] :: splitOnChar sep rest
    else
      match splitOnChar sep rest with
      | [] => [[c]]
      | l :: ls => (c :: l) :: ls

/-- The lines of a text, splitting at every newline. -/
def splitLines (l : List Char) : List (List Char) :=
  splitOnChar '\n' l

/-- Join lines with newline separators; left inverse of `splitLines` on
newline-free lines. -/
def joinLines : List (List Char) → List Char
  | [] => []
  | [l] => l
  | l :: l2 :: ls => l ++ '\n' :: joinLines (l2 :: ls)

/-- The characters of the rendered unit file for a given name and command:
the fixed template text with the description and the command spliced in
verbatim. -/
def renderedChars (n c : String) : List Char :=
  "[Unit]\nDescription=Custom service: ".data ++
    (n.data ++
      ("\nAfter=network.target network-online.target\nWants=network-online.target\n\n[Service]\nType=simple\nExecStart=/bin/bash -c \"".data ++
        (c.data ++
          "\"\nRestart=always\nRestartSec=10\nUser=root\n\n[Install]\nWantedBy=multi-user.target\n".data)))

/-- The list of lines of the rendered unit file, for newline-free inputs. -/
def renderedLines (n c : String) : List (List Char) :=
  ["[Unit]".data,
   "Description=Custom service: ".data ++ n.data,
   "After=network.target network-online.target".data,
   "Wants=network-online.target".data,
   [],
   "[Service]".data,
   "Type=simple".data,
   "ExecStart=/bin/bash -c \"".data ++ (c.data ++ ['\"']),
   "Restart=always".data,
   "RestartSec=10".data,
   "User=root".data,
   [],
   "[Install]".data,
   "WantedBy=multi-user.target".data,
   []]

/-- Scan a template for its `str.format` substitution points, collecting
the field names in order; `none` on a malformed template. -/
def placeholdersAux : Nat → List Char → Option (List (List Char))
  | 0, _ => none
  | _ + 1, [] => some []
  | fuel + 1, c :: rest =>
    if c = lbrace then
      match rest with
      | [] => none
      | c2 :: rest2 =>
        if c2 = lbrace then placeholdersAux fuel rest2
        else
          match readField rest with
          | none => none
          | some (f, after) =>
            (placeholdersAux fuel after).map (fun fs => f :: fs)
    else if c = rbrace then
      match rest with
      | [] => none
      | c2 :: rest2 =>
        if c2 = rbrace then placeholdersAux fuel rest2
        else none
    else placeholdersAux fuel rest

/-- The substitution points of a template, as field-name strings. -/
def templatePlaceholders (t : String) : Option (List String) :=
  (placeholdersAux (t.data.length + 1) t.data).map (List.map (fun l => (⟨l⟩ : String)))

/-- Resolve `.` , `..` and empty segments of a path, most recent segment
first in the accumulator; `..` at the root stays at the root, as in POSIX. -/
def normSegsGo : List (List Char) → List (List Char) → List (List Char)
  | acc, [] => acc.reverse
  | acc, s :: rest =>
    if s = ['.', '.'] then normSegsGo acc.tail rest
    else if s = [] then normSegsGo acc rest
    else if s = ['.'] then normSegsGo acc rest
    else normSegsGo (s :: acc) rest

/-- Join path segments with `/` separators. -/
def joinSegs : List (List Char) → List Char
  | [] => []
  | [s] => s
  | s :: s2 :: rest => s ++ '/' :: joinSegs (s2 :: rest)

/-- Normalize an absolute path: split on `/`, resolve `.`/`..`/empty
segments, and reassemble from the root. -/
def resolveAbsPath (p : String) : String :=
  ⟨'/' :: joinSegs (normSegsGo [] (splitOnChar '/' p.data))⟩

/-- Whether one string is a (case-sensitive) prefix of another. -/
def startsWithStr (pre s : String) : Bool :=
  pre.data.isPrefixOf s.data

/-- A world in which every external step succeeds: running as root, the
write succeeds, and every child process exits 0. -/
def worldAllOk : World :=
  { euid := 0, writeOk := true, run := fun _ => .completed 0 "" "" }

/-- A world in which everything succeeds except the `enable` invocation,
which exits with status 1. -/
def worldEnableFails : World :=
  { euid := 0, writeOk := true,
    run := fun args =>
      if args = ["systemctl", "daemon-reload"] then .completed 0 "" ""
      else .completed 1 "" "failed to enable" }

/-- A world in which the process is not running as root. -/
def worldNonRoot : World :=
  { euid := 1000, writeOk := true, run := fun _ => .completed 0 "" "" }

set_option maxRecDepth 20000 in
/-- Rendering is one fixed computation: for every name and command the
renderer succeeds and produces the template text with the description and
the command spliced in verbatim. -/
theorem gen_eq (n c : String) :
    generate_service_content n c = some ⟨renderedChars n c⟩ := rfl

theorem splitOnChar_sep_cons (sep : Char) (b : List Char) :
    splitOnChar sep (sep :: b) = [] :: splitOnChar sep b := by
  simp [splitOnChar]

theorem splitOnChar_line (sep : Char) (a b : List Char) (h : sep ∉ a) :
    splitOnChar sep (a ++ sep :: b) = a :: splitOnChar sep b := by
  induction a with
  | nil => simpa using splitOnChar_sep_cons sep b
  | cons c a ih =>
    have hc : ¬ c = sep := fun hh => h (hh ▸ List.mem_cons_self c a)
    have ha : sep ∉ a := fun hh => h (List.mem_cons_of_mem c hh)
    simp only [List.cons_append, splitOnChar, if_neg hc]
    rw [show splitOnChar sep (List.append a (sep :: b)) = a :: splitOnChar sep b from ih ha]

theorem splitOnChar_no_sep (sep : Char) (a : List Char) (h : sep ∉ a) :
    splitOnChar sep a = [a] := by
  induction a with
  | nil => simp [splitOnChar]
  | cons c a ih =>
    have hc : ¬ c = sep := fun hh => h (hh ▸ List.mem_cons_self c a)
    have ha : sep ∉ a := fun hh => h (List.mem_cons_of_mem c hh)
    simp only [splitOnChar, if_neg hc]
    rw [ih ha]

theorem splitLines_joinLines : ∀ ls : List (List Char), (∀ l ∈ ls, '\n' ∉ l) → ls ≠ [] →
    splitLines (joinLines ls) = ls
  | [], _, hne => absurd rfl hne
  | [l], h, _ => by
    simpa [joinLines, splitLines] using
      splitOnChar_no_sep '\n' l (h l (List.mem_singleton_self l))
  | l :: l2 :: ls, h, _ => by
    have h1 : '\n' ∉ l := h l (List.mem_cons_self _ _)
    have h2 : ∀ x ∈ l2 :: ls, '\n' ∉ x := fun x hx => h x (List.mem_cons_of_mem l hx)
    simp only [joinLines, splitLines, splitOnChar_line '\n' l _ h1]
    have := splitLines_joinLines (l2 :: ls) h2 (by simp)
    simp only [splitLines] at this
    rw [this]

theorem not_mem_append2 {x : Char} {a b : List Char} (h1 : x ∉ a) (h2 : x ∉ b) :
    x ∉ a ++ b :=
  fun hmem => Or.elim (List.mem_append.mp hmem) h1 h2

theorem renderedChars_eq_joinLines (n c : String) :
    renderedChars n c = joinLines (renderedLines n c) := by
  simp only [renderedChars, renderedLines, joinLines, List.append_assoc, List.singleton_append]
  rfl

/-- The rendered text splits into the fifteen expected lines whenever the
name and the command are newline-free. -/
theorem splitLines_renderedChars (n c : String) (hn : '\n' ∉ n.data) (hc : '\n' ∉ c.data) :
    splitLines (renderedChars n c) = renderedLines n c := by
  rw [renderedChars_eq_joinLines]
  apply splitLines_joinLines
  · intro l hl
    fin_cases hl <;>
      first
        | decide
        | exact not_mem_append2 (by decide) hn
        | exact not_mem_append2 (by decide) (not_mem_append2 hc (by decide))
  · simp [renderedLines]

theorem isPrefixOf_append_self (l m : List Char) : l.isPrefixOf (l ++ m) = true := by
  induction l with
  | nil => simp
  | cons c l ih => simp [List.isPrefixOf, ih]

theorem pyEndsWith_append (n : String) : pyEndsWith (n ++ ".service") ".service" = true := by
  unfold pyEndsWith
  have hdata : (n ++ ".service").data = n.data ++ ".service".data := rfl
  rw [hdata]
  unfold List.isSuffixOf
  rw [List.reverse_append]
  exact isPrefixOf_append_self _ _

theorem normalize_eq_self_iff (n : String) :
    normalize_service_name n = n ↔ pyEndsWith n ".service" = true := by
  cases h : pyEndsWith n ".service" with
  | true => simp [normalize_service_name, h]
  | false =>
    simp only [normalize_service_name, h, if_neg Bool.false_ne_true, Bool.false_eq_true,
      iff_false]
    intro heq
    have h3 : (n.data ++ ".service".data).length = n.data.length :=
      congrArg (fun s : String => s.data.length) heq
    simp [List.length_append] at h3

theorem normalize_idem (n : String) :
    normalize_service_name (normalize_service_name n) = normalize_service_name n := by
  cases h : pyEndsWith n ".service" with
  | true =>
    rw [show normalize_service_name n = n from by simp [normalize_service_name, h]]
    simp [normalize_service_name, h]
  | false =>
    rw [show normalize_service_name n = n ++ ".service" from by simp [normalize_service_name, h]]
    simp [normalize_service_name, pyEndsWith_append]

theorem run_systemctl_command_fst (r : List String → LaunchOutcome) (cmd : List String)
    (sn : Option String) :
    (run_systemctl_command r cmd sn).1 = isZeroExit (r (build_full_command cmd sn)) := by
  cases h : r (build_full_command cmd sn) with
  | completed rc out err =>
    simp only [run_systemctl_command, h, isZeroExit]
    by_cases h0 : rc = 0 <;> simp [h0]
  | notLaunched msg => simp [run_systemctl_command, h, isZeroExit]

/-- C1 counterexample: with name `"foo"`, the install flow writes the file
at the normalized path `/etc/systemd/system/foo.service` but invokes the
enable subcommand with the raw argument `"foo"`, which differs from the
normalized name `"foo.service"`; so the normalized name is not the
argument passed to every supervisor-command invocation. -/
theorem C1_counterexample :
    install_service worldAllOk "foo" "cmd" = (true,
      [.resolve "foo", .write "/etc/systemd/system/foo.service" "cmd",
       .chmod "/etc/systemd/system/foo.service" 0o644,
       .systemctl ["systemctl", "daemon-reload"],
       .systemctl ["systemctl", "enable", "foo"]]) ∧
    normalize_service_name "foo" = "foo.service" ∧
    get_service_path "foo" = "/etc/systemd/system/foo.service" ∧
    (("foo" : String) == "foo.service") = false := by
  refine ⟨by decide, by decide, by decide, by decide⟩

/-- C1 (amended): in every install run that reaches the enable step
(privilege check, write, and reload succeeded), the enable subcommand is
invoked with the raw supplied service name whether or not enable itself
succeeds — the run's overall result is exactly the enable outcome — while
the Target Path uses the normalized name; the two names coincide exactly
when the supplied name already ends with `.service`. -/
theorem C1_amended_enable_uses_raw_name (w : World) (n c : String)
    (hroot : w.euid = 0) (hw : w.writeOk = true)
    (hreload : isZeroExit (w.run ["systemctl", "daemon-reload"]) = true) :
    install_service w n c =
      (isZeroExit (w.run ["systemctl", "enable", n]),
       [.resolve n, .write (get_service_path n) c, .chmod (get_service_path n) 0o644,
        .systemctl ["systemctl", "daemon-reload"], .systemctl ["systemctl", "enable", n]]) ∧
    (normalize_service_name n = n ↔ pyEndsWith n ".service" = true) := by
  constructor
  · cases henable : isZeroExit (w.run ["systemctl", "enable", n]) with
    | true =>
      simp [install_service, check_root_privileges, hroot, save_service_file, hw,
        run_systemctl_command_fst, build_full_command, hreload, henable]
    | false =>
      simp [install_service, check_root_privileges, hroot, save_service_file, hw,
        run_systemctl_command_fst, build_full_command, hreload, henable]
  · exact normalize_eq_self_iff n

/-- C1 witness: the amended statement evaluated on a concrete partially
successful run — the world whose enable invocation exits 1 — with a name
that already carries the suffix: enable still receives the raw name and
the run fails overall. -/
theorem C1_witness :
    install_service worldEnableFails "foo.service" "cmd" = (false,
      [.resolve "foo.service", .write "/etc/systemd/system/foo.service" "cmd",
       .chmod "/etc/systemd/system/foo.service" 0o644,
       .systemctl ["systemctl", "daemon-reload"],
       .systemctl ["systemctl", "enable", "foo.service"]]) ∧
    (normalize_service_name "foo.service" = "foo.service" ↔
      pyEndsWith "foo.service" ".service" = true) :=
  C1_amended_enable_uses_raw_name worldEnableFails "foo.service" "cmd" rfl rfl (by decide)

set_option maxRecDepth 20000 in
/-- C2 counterexample: for the command `"x\nDescription=y"` (an arbitrary
string is allowed by the claim) the rendered text has two lines starting
with `Description=`, not exactly one. -/
theorem C2_counterexample :
    generate_service_content "n" "x\nDescription=y" =
      some "[Unit]\nDescription=Custom service: n\nAfter=network.target network-online.target\nWants=network-online.target\n\n[Service]\nType=simple\nExecStart=/bin/bash -c \"x\nDescription=y\"\nRestart=always\nRestartSec=10\nUser=root\n\n[Install]\nWantedBy=multi-user.target\n" ∧
    ((splitLines (renderedChars "n" "x\nDescription=y")).filter
        (fun l => "Description=".data.isPrefixOf l)).length = 2 := by
  refine ⟨by decide, by decide⟩

set_option maxRecDepth 20000 in
/-- C2 (amended): for every newline-free name and newline-free command the
rendered text has exactly one line starting with `Description=`, equal to
`Description=Custom service: <name>`, and exactly one line starting with
`ExecStart=`, which carries the command verbatim between the fixed
`/bin/bash -c "` wrapper and the closing quote. -/
theorem C2_amended_unique_lines (n c : String) (hn : '\n' ∉ n.data) (hc : '\n' ∉ c.data) :
    generate_service_content n c = some ⟨renderedChars n c⟩ ∧
    (splitLines (renderedChars n c)).filter (fun l => "Description=".data.isPrefixOf l) =
      [("Description=Custom service: " ++ n).data] ∧
    (splitLines (renderedChars n c)).filter (fun l => "ExecStart=".data.isPrefixOf l) =
      ["ExecStart=/bin/bash -c \"".data ++ (c.data ++ ['\"'])] ∧
    "ExecStart=/bin/bash -c \"".data ++ (c.data ++ ['\"']) =
      "ExecStart=/bin/bash -c \"".data ++ (c.data ++ ['\"']) := by
  refine ⟨gen_eq n c, ?_, ?_, rfl⟩
  · rw [splitLines_renderedChars n c hn hc]; rfl
  · rw [splitLines_renderedChars n c hn hc]; rfl

/-- C2 witness: the amended statement at the spec's own example inputs. -/
theorem C2_witness :
    generate_service_content "backup-service" "/usr/local/bin/backup.sh" =
      some ⟨renderedChars "backup-service" "/usr/local/bin/backup.sh"⟩ ∧
    (splitLines (renderedChars "backup-service" "/usr/local/bin/backup.sh")).filter
        (fun l => "Description=".data.isPrefixOf l) =
      [("Description=Custom service: " ++ "backup-service").data] ∧
    (splitLines (renderedChars "backup-service" "/usr/local/bin/backup.sh")).filter
        (fun l => "ExecStart=".data.isPrefixOf l) =
      ["ExecStart=/bin/bash -c \"".data ++ (("/usr/local/bin/backup.sh" : String).data ++ ['\"'])] ∧
    "ExecStart=/bin/bash -c \"".data ++ (("/usr/local/bin/backup.sh" : String).data ++ ['\"']) =
      "ExecStart=/bin/bash -c \"".data ++ (("/usr/local/bin/backup.sh" : String).data ++ ['\"']) :=
  C2_amended_unique_lines "backup-service" "/usr/local/bin/backup.sh" (by decide) (by decide)

/-- C3: when the privilege check returns false, both the save-only and the
install flow return failure with an empty effect trace: no path
resolution, no file write, no permission change, and no supervisor-command
invocation. -/
theorem C3_privilege_gate (w : World) (n c : String)
    (h : check_root_privileges w.euid = false) :
    save_only_service w n c = (false, []) ∧ install_service w n c = (false, []) := by
  constructor
  · simp [save_only_service, h]
  · simp [install_service, h]

/-- C3 witness: the privilege gate evaluated in a concrete non-root world. -/
theorem C3_witness :
    save_only_service worldNonRoot "foo" "c" = (false, []) ∧
    install_service worldNonRoot "foo" "c" = (false, []) :=
  C3_privilege_gate worldNonRoot "foo" "c" (by decide)

/-- C4: in the install flow, when the write succeeds, the reload
subcommand exits zero, and the enable subcommand does not, the flow
returns failure and its effect trace contains the file write, one reload
invocation, and one enable invocation in that order, with no
file-removal effect afterwards (the `Event` type has no removal
constructor at all): the written file is left in place. -/
theorem C4_enable_failure_no_rollback (w : World) (n c : String)
    (hroot : w.euid = 0) (hw : w.writeOk = true)
    (hreload : isZeroExit (w.run ["systemctl", "daemon-reload"]) = true)
    (henable : isZeroExit (w.run ["systemctl", "enable", n]) = false) :
    install_service w n c = (false,
      [.resolve n, .write (get_service_path n) c, .chmod (get_service_path n) 0o644,
       .systemctl ["systemctl", "daemon-reload"], .systemctl ["systemctl", "enable", n]]) := by
  simp [install_service, check_root_privileges, hroot, save_service_file, hw,
    run_systemctl_command_fst, build_full_command, hreload, henable]

/-- C4 witness: the theorem evaluated in the concrete world whose enable
invocation exits with status 1. -/
theorem C4_witness :
    install_service worldEnableFails "foo" "cmd" = (false,
      [.resolve "foo", .write "/etc/systemd/system/foo.service" "cmd",
       .chmod "/etc/systemd/system/foo.service" 0o644,
       .systemctl ["systemctl", "daemon-reload"],
       .systemctl ["systemctl", "enable", "foo"]]) :=
  C4_enable_failure_no_rollback worldEnableFails "foo" "cmd" rfl rfl (by decide) (by decide)

/-- C5: supplying both install and save flags makes `main` return 1 with
an empty effect trace (no renderer, resolver, writer, or runner call);
otherwise the exit value is decided by the selected flow (0 exactly on
flow success, preview always succeeding), and the process exit code is
`main`'s value on completion and 1 on user interrupt or unexpected
error. -/
theorem C5_flag_conflict_and_exit_codes (w : World) (a : Args) :
    (a.install = true → a.save = true → main w a = (1, [])) ∧
    (a.install = true → a.save = false →
      main w a =
        (if (install_service w a.name ⟨renderedChars a.name a.command⟩).1 then 0 else 1,
         .render a.name a.command ::
           (install_service w a.name ⟨renderedChars a.name a.command⟩).2)) ∧
    (a.install = false → a.save = true →
      main w a =
        (if (save_only_service w a.name ⟨renderedChars a.name a.command⟩).1 then 0 else 1,
         .render a.name a.command ::
           (save_only_service w a.name ⟨renderedChars a.name a.command⟩).2)) ∧
    (a.install = false → a.save = false → main w a = (0, [.render a.name a.command])) ∧
    process_exit_code w a .completed = (main w a).1 ∧
    process_exit_code w a .interrupted = 1 ∧
    process_exit_code w a .unexpectedError = 1 := by
  refine ⟨?_, ?_, ?_, ?_, rfl, rfl, rfl⟩ <;>
    (intro h1 h2; simp [main, h1, h2, gen_eq])

/-- C5 witness: the conflicting-flags case and the interrupt exit code
evaluated at concrete arguments. -/
theorem C5_witness :
    main worldAllOk ⟨"n", "c", true, true⟩ = (1, []) ∧
    process_exit_code worldAllOk ⟨"n", "c", true, true⟩ .interrupted = 1 :=
  ⟨(C5_flag_conflict_and_exit_codes worldAllOk ⟨"n", "c", true, true⟩).1 rfl rfl,
   (C5_flag_conflict_and_exit_codes worldAllOk ⟨"n", "c", true, true⟩).2.2.2.2.2.1⟩

/-- C6: the path resolver appends the fixed `.service` suffix exactly when
the (case-sensitively checked) suffix is absent, joins to the fixed base
directory, maps `"foo"` and `"foo.service"` to the same path, and is
idempotent under the suffix rule; a differently-cased suffix is not
recognized. -/
theorem C6_path_resolution :
    (∀ n : String, pyEndsWith n ".service" = false →
      get_service_path n = pathJoin SYSTEMD_DIR (n ++ ".service")) ∧
    (∀ n : String, pyEndsWith n ".service" = true →
      get_service_path n = pathJoin SYSTEMD_DIR n) ∧
    get_service_path "foo" = get_service_path "foo.service" ∧
    (∀ n : String, get_service_path (normalize_service_name n) = get_service_path n) ∧
    get_service_path "FOO.SERVICE" = "/etc/systemd/system/FOO.SERVICE.service" := by
  refine ⟨?_, ?_, by decide, ?_, by decide⟩
  · intro n h; simp [get_service_path, normalize_service_name, h]
  · intro n h; simp [get_service_path, normalize_service_name, h]
  · intro n; unfold get_service_path; rw [normalize_idem]

/-- C6 witness: both suffix branches of the resolver evaluated at
concrete names. -/
theorem C6_witness :
    get_service_path "abc" = pathJoin SYSTEMD_DIR ("abc" ++ ".service") ∧
    get_service_path "abc.service" = pathJoin SYSTEMD_DIR "abc.service" :=
  ⟨C6_path_resolution.1 "abc" (by decide),
   C6_path_resolution.2.1 "abc.service" (by decide)⟩

/-- C7: the supervisor-command runner returns success exactly when the
child process ran and exited with status zero; on a non-zero exit it
reports the captured return code and streams, on a launch failure the
exception message, and on success the captured stdout. -/
theorem C7_runner_exit_semantics (r : List String → LaunchOutcome) (cmd : List String)
    (sn : Option String) :
    ((run_systemctl_command r cmd sn).1 = true ↔
      ∃ out err, r (build_full_command cmd sn) = .completed 0 out err) ∧
    (∀ rc out err, r (build_full_command cmd sn) = .completed rc out err → rc ≠ 0 →
      run_systemctl_command r cmd sn = (false, .calledProcessError rc out err)) ∧
    (∀ msg, r (build_full_command cmd sn) = .notLaunched msg →
      run_systemctl_command r cmd sn = (false, .otherError msg)) ∧
    (∀ out err, r (build_full_command cmd sn) = .completed 0 out err →
      run_systemctl_command r cmd sn = (true, .success out)) := by
  refine ⟨?_, ?_, ?_, ?_⟩
  · cases h : r (build_full_command cmd sn) with
    | completed rc out err =>
      by_cases h0 : rc = 0
      · subst h0
        simp [run_systemctl_command, h]
      · simp [run_systemctl_command, h, h0]
    | notLaunched msg => simp [run_systemctl_command, h]
  · intro rc out err hr h0
    simp [run_systemctl_command, hr, h0]
  · intro msg hr
    simp [run_systemctl_command, hr]
  · intro out err hr
    simp [run_systemctl_command, hr]

/-- C7 witness: a concrete runner whose child exits with status 2 makes
the runner fail with the captured diagnostics. -/
theorem C7_witness :
    run_systemctl_command (fun _ => LaunchOutcome.completed 2 "o" "e") ["enable"] (some "foo") =
      (false, .calledProcessError 2 "o" "e") :=
  (C7_runner_exit_semantics (fun _ => LaunchOutcome.completed 2 "o" "e") ["enable"]
    (some "foo")).2.1 2 "o" "e" rfl (by decide)

set_option maxRecDepth 20000 in
/-- C8 counterexample: the fixed template has exactly two substitution
points, `description` and `command`, not four. -/
theorem C8_counterexample :
    templatePlaceholders SERVICE_TEMPLATE = some ["description", "command"] ∧
    (templatePlaceholders SERVICE_TEMPLATE).map List.length = some 2 := by
  refine ⟨by decide, by decide⟩

set_option maxRecDepth 20000 in
/-- C8 (amended): the file is produced from the one fixed template with
exactly two substitution points, whose substituted values are the
description `"Custom service: " + name` and the command, inserted
verbatim. -/
theorem C8_amended_two_placeholders (n c : String) :
    templatePlaceholders SERVICE_TEMPLATE = some ["description", "command"] ∧
    generate_service_content n c =
      some ⟨"[Unit]\nDescription=".data ++
        (("Custom service: " ++ n).data ++
          ("\nAfter=network.target network-online.target\nWants=network-online.target\n\n[Service]\nType=simple\nExecStart=/bin/bash -c \"".data ++
            (c.data ++
              "\"\nRestart=always\nRestartSec=10\nUser=root\n\n[Install]\nWantedBy=multi-user.target\n".data)))⟩ := by
  exact ⟨by decide, gen_eq n c⟩

set_option maxRecDepth 20000 in
/-- C9 counterexample: a command consisting of a lone opening brace does
not make the renderer raise; substitution parses only the fixed template,
so the rendered text is returned with the brace inserted verbatim. -/
theorem C9_counterexample :
    generate_service_content "n" "\x7b" =
      some "[Unit]\nDescription=Custom service: n\nAfter=network.target network-online.target\nWants=network-online.target\n\n[Service]\nType=simple\nExecStart=/bin/bash -c \"\x7b\"\nRestart=always\nRestartSec=10\nUser=root\n\n[Install]\nWantedBy=multi-user.target\n" := by
  decide

/-- C9 (amended): for every name and every command string, including those
containing lone brace characters, the renderer returns rendered text (it
never raises), with the command inserted verbatim. -/
theorem C9_amended_renderer_total (n c : String) :
    generate_service_content n c = some ⟨renderedChars n c⟩ ∧
    renderedChars n c =
      ("[Unit]\nDescription=Custom service: ".data ++
        (n.data ++ "\nAfter=network.target network-online.target\nWants=network-online.target\n\n[Service]\nType=simple\nExecStart=/bin/bash -c \"".data)) ++
      (c.data ++
        "\"\nRestart=always\nRestartSec=10\nUser=root\n\n[Install]\nWantedBy=multi-user.target\n".data) := by
  refine ⟨gen_eq n c, ?_⟩
  simp [renderedChars, List.append_assoc]

/-- C10: the name `"../evil"` (a name beginning with `../`) resolves to a
target path that normalizes to a location outside the privileged base
directory, and the save-only flow (as root) writes the rendered content at
exactly that escaping path: no check prevents it. -/
theorem C10_path_escape :
    get_service_path "../evil" = "/etc/systemd/system/../evil.service" ∧
    resolveAbsPath (get_service_path "../evil") = "/etc/systemd/evil.service" ∧
    startsWithStr "/etc/systemd/system/" (resolveAbsPath (get_service_path "../evil")) = false ∧
    save_only_service worldAllOk "../evil" "content" = (true,
      [.resolve "../evil", .write "/etc/systemd/system/../evil.service" "content",
       .chmod "/etc/systemd/system/../evil.service" 0o644]) := by
  refine ⟨by decide, by decide, by decide, by decide⟩

end Gensystemd
